import Mathlib

/-!
Verification of the resend-cli API client (src/client.rs, src/types.rs,
src/config.rs) against its natural-language specification.

Modelling conventions:
* JSON documents on the wire are modelled by the inductive `Json`; the
  external serde_json / reqwest text layer is represented by `Json.render`
  (the serialized text of a document, used where the code calls
  `response.text()`).
* `reqwest::Response` is modelled by `Response` (status code + body
  document); transport-level outcomes (`send().await`) by
  `TransportOutcome`.
* The deserialization of each DTO (`#[derive(Deserialize)]` with its serde
  attributes) is modelled by a per-type `fromJson` function, and
  serialization (`#[derive(Serialize)]`, `skip_serializing_if`) by a
  per-type `toJson`/`encode` function, following the struct declarations in
  src/types.rs field by field.
* Each client operation takes the transport as a function argument and
  returns its result paired with the number of requests it issued, so that
  retry behaviour is observable.
-/

namespace ResendCli

/-- JSON document abstract syntax: the wire values exchanged with the API. -/
inductive Json where
  | null : Json
  | bool (b : Bool) : Json
  | num (n : Int) : Json
  | str (s : String) : Json
  | arr (elems : List Json) : Json
  | obj (fields : List (String × Json)) : Json

/-- Escape one character as serde_json does for the common cases. -/
def escapeChar (c : Char) : String :=
  if c = '"' then "\\\""
  else if c = '\\' then "\\\\"
  else if c = '\n' then "\\n"
  else if c = '\r' then "\\r"
  else if c = '\t' then "\\t"
  else String.singleton c

/-- Escape a string body for JSON output. -/
def escapeString (s : String) : String :=
  String.join (s.data.map escapeChar)

/-- A JSON string literal with quotes. -/
def quoteString (s : String) : String :=
  "\"" ++ escapeString s ++ "\""

mutual

/-- Compact serialized text of a JSON document (serde_json `to_string`);
this is the model of the raw response body text (`response.text()`). -/
def Json.render : Json → String
  | .null => "null"
  | .bool b => if b then "true" else "false"
  | .num n => toString n
  | .str s => quoteString s
  | .arr xs => "[" ++ Json.renderElems xs ++ "]"
  | .obj fs => "\x7b" ++ Json.renderFields fs ++ "\x7d"

/-- Comma-separated rendering of array elements. -/
def Json.renderElems : List Json → String
  | [] => ""
  | [x] => Json.render x
  | x :: xs => Json.render x ++ "," ++ Json.renderElems xs

/-- Comma-separated rendering of object fields. -/
def Json.renderFields : List (String × Json) → String
  | [] => ""
  | [(k, v)] => quoteString k ++ ":" ++ Json.render v
  | (k, v) :: fs => quoteString k ++ ":" ++ Json.render v ++ "," ++ Json.renderFields fs

end

/-- The error taxonomy of `enum ApiError` in src/client.rs. -/
inductive ApiError where
  | AuthenticationError : ApiError
  | NotFoundError (detail : String) : ApiError
  | RateLimitError : ApiError
  | ValidationError (detail : String) : ApiError
  | ApiError (status : Nat) (message : String) : ApiError
  | NetworkError (detail : String) : ApiError
deriving DecidableEq

/-- The user-facing message of each error kind, from the `#[error(...)]`
attributes on `enum ApiError`. -/
def ApiError.message : ResendCli.ApiError → String
  | .AuthenticationError => "Authentication failed. Check your API key."
  | .NotFoundError d => "Resource not found: " ++ d
  | .RateLimitError => "Rate limit exceeded. Please try again later."
  | .ValidationError d => "Validation error: " ++ d
  | .ApiError st m => "API error: " ++ toString st ++ " - " ++ m
  | .NetworkError d => "Network error: " ++ d

/-- An error escaping a client operation (`anyhow::Error` in the source):
either one of the classified `ApiError` kinds, or the unclassified decode
failure produced by `.context("Failed to parse response")` on the success
path of `handle_response`. -/
inductive ClientError where
  | api (e : ApiError) : ClientError
  | decodeFailure (ctx : String) : ClientError

/-- An HTTP response: status code and body document. -/
structure Response where
  status : Nat
  body : Json

/-- A `reqwest` transport error: the code distinguishes `e.is_timeout()`
from every other transport failure. -/
inductive ReqwestError where
  | timeout : ReqwestError
  | other (desc : String) : ReqwestError

/-- The `map_err` closure shared by get/post/patch/delete in src/client.rs. -/
def networkError : ReqwestError → ApiError
  | .timeout => .NetworkError "Request timeout"
  | .other d => .NetworkError d

/-- Outcome of one `send().await` on the transport. -/
inductive TransportOutcome where
  | ok (resp : Response) : TransportOutcome
  | err (e : ReqwestError) : TransportOutcome

/-- A request as handed to the transport. -/
structure Request where
  method : String
  path : String
  body : Option Json

namespace ResendClient

/-- `ResendClient::handle_response`: shared status classification for every
request that expects a body. `dec` models `response.json::<T>()`, the serde
deserialization of the body into the expected success type. -/
def handle_response {T : Type} (dec : Json → Option T) (resp : Response) :
    Except ClientError T :=
  if resp.status = 200 ∨ resp.status = 201 then
    match dec resp.body with
    | some v => .ok v
    | none => .error (.decodeFailure "Failed to parse response")
  else if resp.status = 401 ∨ resp.status = 403 then
    .error (.api .AuthenticationError)
  else if resp.status = 404 then
    .error (.api (.NotFoundError resp.body.render))
  else if resp.status = 429 then
    .error (.api .RateLimitError)
  else if resp.status = 422 ∨ resp.status = 400 then
    .error (.api (.ValidationError resp.body.render))
  else
    .error (.api (.ApiError resp.status resp.body.render))

/-- `ResendClient::get`: issue one GET, classify the outcome. The second
component counts the requests issued to the transport. -/
def get {T : Type} (dec : Json → Option T) (transport : Request → TransportOutcome)
    (path : String) : Except ClientError T × Nat :=
  match transport ⟨"GET", path, none⟩ with
  | .err e => (.error (.api (networkError e)), 1)
  | .ok resp => (handle_response dec resp, 1)

/-- `ResendClient::post`: issue one POST with a JSON body, classify. -/
def post {T : Type} (dec : Json → Option T) (transport : Request → TransportOutcome)
    (path : String) (body : Json) : Except ClientError T × Nat :=
  match transport ⟨"POST", path, some body⟩ with
  | .err e => (.error (.api (networkError e)), 1)
  | .ok resp => (handle_response dec resp, 1)

/-- `ResendClient::patch`: issue one PATCH with a JSON body, classify. -/
def patch {T : Type} (dec : Json → Option T) (transport : Request → TransportOutcome)
    (path : String) (body : Json) : Except ClientError T × Nat :=
  match transport ⟨"PATCH", path, some body⟩ with
  | .err e => (.error (.api (networkError e)), 1)
  | .ok resp => (handle_response dec resp, 1)

/-- `ResendClient::delete`: issue one DELETE; 200 and 204 are success with
no body decoded, all other statuses are classified exactly as in
`handle_response`. -/
def delete (transport : Request → TransportOutcome) (path : String) :
    Except ClientError Unit × Nat :=
  match transport ⟨"DELETE", path, none⟩ with
  | .err e => (.error (.api (networkError e)), 1)
  | .ok resp =>
    (if resp.status = 200 ∨ resp.status = 204 then
      .ok ()
    else if resp.status = 401 ∨ resp.status = 403 then
      .error (.api .AuthenticationError)
    else if resp.status = 404 then
      .error (.api (.NotFoundError resp.body.render))
    else if resp.status = 429 then
      .error (.api .RateLimitError)
    else if resp.status = 422 ∨ resp.status = 400 then
      .error (.api (.ValidationError resp.body.render))
    else
      .error (.api (.ApiError resp.status resp.body.render)), 1)

end ResendClient

/-! DTO types from src/types.rs, with their serde (de)serialization modelled
field by field from the derive attributes: a field without `#[serde(default)]`
is required (missing ⇒ decode error), an `Option` field with
`#[serde(default)]` decodes `null` or a missing key to `none`, and
`#[serde(skip_serializing_if = "Option::is_none")]` omits the key entirely
when serializing `None`. -/

/-- First occurrence of a key in a JSON object's field list. -/
def getField : List (String × Json) → String → Option Json
  | [], _ => none
  | (k, v) :: fs, key => if k = key then some v else getField fs key

/-- Deserialize a JSON string. -/
def Json.asString : Json → Option String
  | .str s => some s
  | _ => none

/-- Deserialize a JSON number as an integer (`i32` fields). -/
def Json.asInt : Json → Option Int
  | .num n => some n
  | _ => none

/-- A required `String` field: missing key or non-string value is an error. -/
def requiredString (fields : List (String × Json)) (k : String) : Option String :=
  (getField fields k).bind Json.asString

/-- Deserialize a list of JSON strings (`Vec<String>`). -/
def decodeStrings : List Json → Option (List String)
  | [] => some []
  | x :: xs =>
    match x.asString, decodeStrings xs with
    | some s, some rest => some (s :: rest)
    | _, _ => none

/-- Deserialize a `Vec<String>` value. -/
def Json.asStringList : Json → Option (List String)
  | .arr xs => decodeStrings xs
  | _ => none

/-- Deserialize every element of a JSON array (`Vec<T>`). -/
def decodeList {α : Type} (dec : Json → Option α) : List Json → Option (List α)
  | [] => some []
  | x :: xs =>
    match dec x, decodeList dec xs with
    | some a, some rest => some (a :: rest)
    | _, _ => none

/-- An `Option` field with `#[serde(default)]`: a missing key or `null`
decodes to `none`; any other value must decode with `dec`. -/
def optionalField {α : Type} (dec : Json → Option α) (fields : List (String × Json))
    (k : String) : Option (Option α) :=
  match getField fields k with
  | none => some none
  | some .null => some none
  | some v => (dec v).map some

/-- Serialize an `Option` field without a skip attribute: `None` is `null`. -/
def encodeOpt {α : Type} (enc : α → Json) : Option α → Json
  | none => .null
  | some a => enc a

/-- Serialize an `Option` field with `skip_serializing_if = "Option::is_none"`:
`None` contributes no key at all. -/
def optField {α : Type} (k : String) (enc : α → Json) : Option α → List (String × Json)
  | none => []
  | some a => [(k, enc a)]

/-- The `Tabular` trait of src/types.rs: fixed column headers and the
string-rendered row of one value. -/
class Tabular (α : Type) where
  headers : List String
  row : α → List String

/-- `SendEmailRequest` (src/types.rs): `from`, `to`, `subject` required, all
other fields optional with skip-if-none serialization. -/
structure SendEmailRequest where
  «from» : String
  «to» : List String
  subject : String
  html : Option String
  text : Option String
  cc : Option (List String)
  bcc : Option (List String)
  reply_to : Option (List String)
  scheduled_at : Option String
deriving DecidableEq

/-- Serialization of `SendEmailRequest` per its derive attributes. -/
def SendEmailRequest.toJson (r : SendEmailRequest) : Json :=
  .obj ([("from", .str r.«from»), ("to", .arr (r.«to».map Json.str)),
         ("subject", .str r.subject)]
    ++ optField "html" Json.str r.html
    ++ optField "text" Json.str r.text
    ++ optField "cc" (fun l => .arr (l.map Json.str)) r.cc
    ++ optField "bcc" (fun l => .arr (l.map Json.str)) r.bcc
    ++ optField "reply_to" (fun l => .arr (l.map Json.str)) r.reply_to
    ++ optField "scheduled_at" Json.str r.scheduled_at)

/-- `SendEmailResponse` (src/types.rs): one required `id` field. -/
structure SendEmailResponse where
  id : String
deriving DecidableEq

/-- Deserialization of `SendEmailResponse`: `id` is required, no default. -/
def SendEmailResponse.fromJson : Json → Option SendEmailResponse
  | .obj fields => (requiredString fields "id").map SendEmailResponse.mk
  | _ => none

/-- `Email` (src/types.rs): required `id`, all other fields
`#[serde(default)]` options. -/
structure Email where
  id : String
  «from» : Option String
  «to» : Option (List String)
  subject : Option String
  created_at : Option String
  last_event : Option String
deriving DecidableEq

/-- Deserialization of `Email` per its derive attributes. -/
def Email.fromJson : Json → Option Email
  | .obj fields => do
    let id ← requiredString fields "id"
    let f ← optionalField Json.asString fields "from"
    let t ← optionalField Json.asStringList fields "to"
    let s ← optionalField Json.asString fields "subject"
    let c ← optionalField Json.asString fields "created_at"
    let l ← optionalField Json.asString fields "last_event"
    pure ⟨id, f, t, s, c, l⟩
  | _ => none

/-- Serialization of `Email` (derive Serialize, no skip attributes). -/
def Email.encode (e : Email) : Json :=
  .obj [("id", .str e.id),
        ("from", encodeOpt Json.str e.«from»),
        ("to", encodeOpt (fun l => .arr (l.map Json.str)) e.«to»),
        ("subject", encodeOpt Json.str e.subject),
        ("created_at", encodeOpt Json.str e.created_at),
        ("last_event", encodeOpt Json.str e.last_event)]

/-- `impl Tabular for Email` (src/types.rs). -/
instance : Tabular Email where
  headers := ["ID", "TO", "SUBJECT", "STATUS", "CREATED"]
  row e := [e.id, (e.«to».map (String.intercalate ", ")).getD "",
            e.subject.getD "", e.last_event.getD "", e.created_at.getD ""]

/-- `EmailsResponse`: list envelope with a required `data` array. -/
structure EmailsResponse where
  data : List Email
deriving DecidableEq

/-- Deserialization of the `EmailsResponse` envelope. -/
def EmailsResponse.fromJson : Json → Option EmailsResponse
  | .obj fields =>
    match getField fields "data" with
    | some (.arr xs) => (decodeList Email.fromJson xs).map EmailsResponse.mk
    | _ => none
  | _ => none

/-- `DnsRecord` (src/types.rs): `record`, `name`, `value` required, the rest
`#[serde(default)]` options; `r#type` is the JSON key `type`. -/
structure DnsRecord where
  record : String
  name : String
  «type» : Option String
  ttl : Option String
  value : String
  status : Option String
  priority : Option Int
deriving DecidableEq

/-- Deserialization of `DnsRecord` per its derive attributes. -/
def DnsRecord.fromJson : Json → Option DnsRecord
  | .obj fields => do
    let record ← requiredString fields "record"
    let name ← requiredString fields "name"
    let ty ← optionalField Json.asString fields "type"
    let ttl ← optionalField Json.asString fields "ttl"
    let value ← requiredString fields "value"
    let status ← optionalField Json.asString fields "status"
    let priority ← optionalField Json.asInt fields "priority"
    pure ⟨record, name, ty, ttl, value, status, priority⟩
  | _ => none

/-- Serialization of `DnsRecord` (derive Serialize, no skip attributes). -/
def DnsRecord.encode (r : DnsRecord) : Json :=
  .obj [("record", .str r.record),
        ("name", .str r.name),
        ("type", encodeOpt Json.str r.«type»),
        ("ttl", encodeOpt Json.str r.ttl),
        ("value", .str r.value),
        ("status", encodeOpt Json.str r.status),
        ("priority", encodeOpt Json.num r.priority)]

/-- `Domain` (src/types.rs): required `id` and `name`; `status`, `region`,
`records` are `#[serde(default)]` options. -/
structure Domain where
  id : String
  name : String
  status : Option String
  region : Option String
  records : Option (List DnsRecord)
deriving DecidableEq

/-- Deserialization of `Domain` per its derive attributes. -/
def Domain.fromJson : Json → Option Domain
  | .obj fields => do
    let id ← requiredString fields "id"
    let name ← requiredString fields "name"
    let status ← optionalField Json.asString fields "status"
    let region ← optionalField Json.asString fields "region"
    let records ← optionalField
      (fun j => match j with
        | .arr xs => decodeList DnsRecord.fromJson xs
        | _ => none) fields "records"
    pure ⟨id, name, status, region, records⟩
  | _ => none

/-- Serialization of `Domain` (derive Serialize, no skip attributes). -/
def Domain.encode (d : Domain) : Json :=
  .obj [("id", .str d.id),
        ("name", .str d.name),
        ("status", encodeOpt Json.str d.status),
        ("region", encodeOpt Json.str d.region),
        ("records", encodeOpt (fun l => .arr (l.map DnsRecord.encode)) d.records)]

/-- `impl Tabular for Domain` (src/types.rs). -/
instance : Tabular Domain where
  headers := ["ID", "NAME", "STATUS", "REGION"]
  row d := [d.id, d.name, d.status.getD "", d.region.getD ""]

/-- `DomainsResponse`: list envelope with a required `data` array. -/
structure DomainsResponse where
  data : List Domain
deriving DecidableEq

/-- Deserialization of the `DomainsResponse` envelope. -/
def DomainsResponse.fromJson : Json → Option DomainsResponse
  | .obj fields =>
    match getField fields "data" with
    | some (.arr xs) => (decodeList Domain.fromJson xs).map DomainsResponse.mk
    | _ => none
  | _ => none

/-- `ApiKey` (src/types.rs): required `id`, `name`; `token`, `created_at`
are `#[serde(default)]` options. -/
structure ApiKey where
  id : String
  name : String
  token : Option String
  created_at : Option String
deriving DecidableEq

/-- Deserialization of `ApiKey` per its derive attributes. -/
def ApiKey.fromJson : Json → Option ApiKey
  | .obj fields => do
    let id ← requiredString fields "id"
    let name ← requiredString fields "name"
    let token ← optionalField Json.asString fields "token"
    let created_at ← optionalField Json.asString fields "created_at"
    pure ⟨id, name, token, created_at⟩
  | _ => none

/-- Serialization of `ApiKey` (derive Serialize, no skip attributes). -/
def ApiKey.encode (k : ApiKey) : Json :=
  .obj [("id", .str k.id),
        ("name", .str k.name),
        ("token", encodeOpt Json.str k.token),
        ("created_at", encodeOpt Json.str k.created_at)]

/-- `impl Tabular for ApiKey` (src/types.rs). -/
instance : Tabular ApiKey where
  headers := ["ID", "NAME", "CREATED"]
  row k := [k.id, k.name, k.created_at.getD ""]

/-- `ApiKeysResponse`: list envelope with a required `data` array. -/
structure ApiKeysResponse where
  data : List ApiKey
deriving DecidableEq

/-- Deserialization of the `ApiKeysResponse` envelope. -/
def ApiKeysResponse.fromJson : Json → Option ApiKeysResponse
  | .obj fields =>
    match getField fields "data" with
    | some (.arr xs) => (decodeList ApiKey.fromJson xs).map ApiKeysResponse.mk
    | _ => none
  | _ => none

/-- `Template` (src/types.rs): required `id`, `name`; `subject`,
`created_at` are `#[serde(default)]` options. -/
structure Template where
  id : String
  name : String
  subject : Option String
  created_at : Option String
deriving DecidableEq

/-- Deserialization of `Template` per its derive attributes. -/
def Template.fromJson : Json → Option Template
  | .obj fields => do
    let id ← requiredString fields "id"
    let name ← requiredString fields "name"
    let subject ← optionalField Json.asString fields "subject"
    let created_at ← optionalField Json.asString fields "created_at"
    pure ⟨id, name, subject, created_at⟩
  | _ => none

/-- Serialization of `Template` (derive Serialize, no skip attributes). -/
def Template.encode (t : Template) : Json :=
  .obj [("id", .str t.id),
        ("name", .str t.name),
        ("subject", encodeOpt Json.str t.subject),
        ("created_at", encodeOpt Json.str t.created_at)]

/-- `impl Tabular for Template` (src/types.rs). -/
instance : Tabular Template where
  headers := ["ID", "NAME", "SUBJECT", "CREATED"]
  row t := [t.id, t.name, t.subject.getD "", t.created_at.getD ""]

/-- `TemplatesResponse`: list envelope with a required `data` array. -/
structure TemplatesResponse where
  data : List Template
deriving DecidableEq

/-- Deserialization of the `TemplatesResponse` envelope. -/
def TemplatesResponse.fromJson : Json → Option TemplatesResponse
  | .obj fields =>
    match getField fields "data" with
    | some (.arr xs) => (decodeList Template.fromJson xs).map TemplatesResponse.mk
    | _ => none
  | _ => none

namespace ResendClient

/-- `ResendClient::send_email`: POST /emails with the serialized request,
expecting a `SendEmailResponse` body. -/
def send_email (transport : Request → TransportOutcome) (req : SendEmailRequest) :
    Except ClientError SendEmailResponse × Nat :=
  post SendEmailResponse.fromJson transport "/emails" (SendEmailRequest.toJson req)

/-- `ResendClient::list_emails`: GET /emails, then unwrap the `data`
envelope (`Ok(response.data)`). -/
def list_emails (transport : Request → TransportOutcome) :
    Except ClientError (List Email) × Nat :=
  let r := get EmailsResponse.fromJson transport "/emails"
  (Except.map EmailsResponse.data r.1, r.2)

/-- `ResendClient::list_domains`: GET /domains, unwrap the envelope. -/
def list_domains (transport : Request → TransportOutcome) :
    Except ClientError (List Domain) × Nat :=
  let r := get DomainsResponse.fromJson transport "/domains"
  (Except.map DomainsResponse.data r.1, r.2)

/-- `ResendClient::list_api_keys`: GET /api-keys, unwrap the envelope. -/
def list_api_keys (transport : Request → TransportOutcome) :
    Except ClientError (List ApiKey) × Nat :=
  let r := get ApiKeysResponse.fromJson transport "/api-keys"
  (Except.map ApiKeysResponse.data r.1, r.2)

/-- `ResendClient::list_templates`: GET /templates, unwrap the envelope. -/
def list_templates (transport : Request → TransportOutcome) :
    Except ClientError (List Template) × Nat :=
  let r := get TemplatesResponse.fromJson transport "/templates"
  (Except.map TemplatesResponse.data r.1, r.2)

/-- `ResendClient::test_connection`: GET /domains purely to validate the
key; `Ok(_) => Ok(true)`, `Err(e) => Err(e)`. -/
def test_connection (transport : Request → TransportOutcome) :
    Except ClientError Bool × Nat :=
  let r := get DomainsResponse.fromJson transport "/domains"
  (match r.1 with
   | .ok _ => .ok true
   | .error e => .error e, r.2)

end ResendClient

/-- `Config::mask_key` (src/config.rs): show the first 8 characters, then
asterisks; keys of at most 8 characters are fully masked. -/
def Config.mask_key (key : String) : String :=
  let char_count := key.length
  if char_count ≤ 8 then
    String.mk (List.replicate char_count '*')
  else
    String.mk (key.data.take 8) ++ "********"

/-! Helper lemmas: deserialization is a left inverse of serialization for
the DTO types, elementwise on lists. -/

theorem decodeStrings_map_str (l : List String) :
    decodeStrings (l.map Json.str) = some l := by
  induction l with
  | nil => rfl
  | cons x xs ih => simp [decodeStrings, Json.asString, ih]

theorem decodeList_map {α : Type} (dec : Json → Option α) (enc : α → Json)
    (h : ∀ a, dec (enc a) = some a) (l : List α) :
    decodeList dec (l.map enc) = some l := by
  induction l with
  | nil => rfl
  | cons x xs ih => simp [decodeList, h, ih]

theorem email_fromJson_encode (e : Email) :
    Email.fromJson (Email.encode e) = some e := by
  rcases e with ⟨id, f, t, s, c, l⟩
  cases f <;> cases t <;> cases s <;> cases c <;> cases l <;>
    simp [Email.encode, Email.fromJson, requiredString, getField, optionalField,
      Json.asString, Json.asStringList, encodeOpt, decodeStrings_map_str]

theorem dnsRecord_fromJson_encode (r : DnsRecord) :
    DnsRecord.fromJson (DnsRecord.encode r) = some r := by
  rcases r with ⟨rec, nm, ty, ttl, va, st, pr⟩
  cases ty <;> cases ttl <;> cases st <;> cases pr <;>
    simp [DnsRecord.encode, DnsRecord.fromJson, requiredString, getField,
      optionalField, Json.asString, Json.asInt, encodeOpt]

theorem domain_fromJson_encode (d : Domain) :
    Domain.fromJson (Domain.encode d) = some d := by
  rcases d with ⟨id, nm, st, rg, rs⟩
  cases st <;> cases rg <;> cases rs <;>
    simp [Domain.encode, Domain.fromJson, requiredString, getField,
      optionalField, Json.asString, encodeOpt,
      decodeList_map DnsRecord.fromJson DnsRecord.encode dnsRecord_fromJson_encode]

theorem apiKey_fromJson_encode (k : ApiKey) :
    ApiKey.fromJson (ApiKey.encode k) = some k := by
  rcases k with ⟨id, nm, tk, ca⟩
  cases tk <;> cases ca <;>
    simp [ApiKey.encode, ApiKey.fromJson, requiredString, getField,
      optionalField, Json.asString, encodeOpt]

theorem template_fromJson_encode (t : Template) :
    Template.fromJson (Template.encode t) = some t := by
  rcases t with ⟨id, nm, sb, ca⟩
  cases sb <;> cases ca <;>
    simp [Template.encode, Template.fromJson, requiredString, getField,
      optionalField, Json.asString, encodeOpt]

/-- Claim C1: for every HTTP response with status 401 or 403, every client
operation (get, post, patch, delete) returns `AuthenticationError`, whose
rendered message is the fixed string; the result is the same closed value
for every response body, so no part of the body text appears in the error. -/
theorem claim_C1 {T : Type} (dec : Json → Option T)
    (transport : Request → TransportOutcome) (path : String) (reqBody : Json)
    (status : Nat) (body : Json)
    (h : ∀ req, transport req = .ok ⟨status, body⟩)
    (hst : status = 401 ∨ status = 403) :
    (ResendClient.get dec transport path).1 = .error (.api .AuthenticationError)
    ∧ (ResendClient.post dec transport path reqBody).1
        = .error (.api .AuthenticationError)
    ∧ (ResendClient.patch dec transport path reqBody).1
        = .error (.api .AuthenticationError)
    ∧ (ResendClient.delete transport path).1 = .error (.api .AuthenticationError)
    ∧ ApiError.AuthenticationError.message
        = "Authentication failed. Check your API key." := by
  rcases hst with h1 | h1 <;> subst h1 <;>
    simp [ResendClient.get, ResendClient.post, ResendClient.patch,
      ResendClient.delete, ResendClient.handle_response, h, ApiError.message]

/-- Witness for C1 at status 401. -/
theorem claim_C1_witness :
    (ResendClient.get SendEmailResponse.fromJson
      (fun _ => .ok ⟨401, Json.null⟩) "/emails").1
      = .error (.api .AuthenticationError) :=
  (claim_C1 SendEmailResponse.fromJson (fun _ => .ok ⟨401, Json.null⟩) "/emails"
    Json.null 401 Json.null (fun _ => rfl) (Or.inl rfl)).1

/-- Claim C2: status 400 or 422 yields `ValidationError` whose detail is the
raw body text; 404 yields `NotFoundError` with the raw body text; any status
outside {200, 201, 204, 400, 401, 403, 404, 422, 429} yields
`ApiError status` with the raw body text, both in `handle_response` and in
`delete`. -/
theorem claim_C2 {T : Type} (dec : Json → Option T)
    (transport : Request → TransportOutcome) (path : String)
    (status : Nat) (body : Json)
    (h : ∀ req, transport req = .ok ⟨status, body⟩) :
    ((status = 400 ∨ status = 422) →
      ResendClient.handle_response dec ⟨status, body⟩
          = .error (.api (.ValidationError body.render))
        ∧ (ResendClient.delete transport path).1
          = .error (.api (.ValidationError body.render)))
    ∧ (status = 404 →
      ResendClient.handle_response dec ⟨status, body⟩
          = .error (.api (.NotFoundError body.render))
        ∧ (ResendClient.delete transport path).1
          = .error (.api (.NotFoundError body.render)))
    ∧ (status ∉ ([200, 201, 204, 400, 401, 403, 404, 422, 429] : List Nat) →
      ResendClient.handle_response dec ⟨status, body⟩
          = .error (.api (.ApiError status body.render))
        ∧ (ResendClient.delete transport path).1
          = .error (.api (.ApiError status body.render))) := by
  refine ⟨?_, ?_, ?_⟩
  · rintro (h1 | h1) <;> subst h1 <;>
      simp [ResendClient.handle_response, ResendClient.delete, h]
  · rintro h1; subst h1
    simp [ResendClient.handle_response, ResendClient.delete, h]
  · intro h1
    simp only [List.mem_cons, List.not_mem_nil, or_false, not_or] at h1
    obtain ⟨n200, n201, n204, n400, n401, n403, n404, n422, n429⟩ := h1
    simp [ResendClient.handle_response, ResendClient.delete, h,
      n200, n201, n204, n400, n401, n403, n404, n422, n429]

/-- Witness for C2 at statuses 400, 404 and 500. -/
theorem claim_C2_witness :
    ResendClient.handle_response SendEmailResponse.fromJson ⟨400, Json.str "bad"⟩
      = .error (.api (.ValidationError (Json.str "bad").render))
    ∧ ResendClient.handle_response SendEmailResponse.fromJson ⟨404, Json.str "gone"⟩
      = .error (.api (.NotFoundError (Json.str "gone").render))
    ∧ ResendClient.handle_response SendEmailResponse.fromJson ⟨500, Json.str "oops"⟩
      = .error (.api (.ApiError 500 (Json.str "oops").render)) :=
  ⟨((claim_C2 SendEmailResponse.fromJson (fun _ => .ok ⟨400, Json.str "bad"⟩)
      "/x" 400 (Json.str "bad") (fun _ => rfl)).1 (Or.inl rfl)).1,
   ((claim_C2 SendEmailResponse.fromJson (fun _ => .ok ⟨404, Json.str "gone"⟩)
      "/x" 404 (Json.str "gone") (fun _ => rfl)).2.1 rfl).1,
   ((claim_C2 SendEmailResponse.fromJson (fun _ => .ok ⟨500, Json.str "oops"⟩)
      "/x" 500 (Json.str "oops") (fun _ => rfl)).2.2 (by decide)).1⟩

/-- Claim C3: a 429 response makes every operation return `RateLimitError`,
and every operation issues exactly one request to the transport for every
possible transport behaviour (no retry, no re-issue). -/
theorem claim_C3 {T : Type} (dec : Json → Option T)
    (transport : Request → TransportOutcome) (path : String) (reqBody : Json)
    (body : Json)
    (h : ∀ req, transport req = .ok ⟨429, body⟩) :
    (ResendClient.get dec transport path).1 = .error (.api .RateLimitError)
    ∧ (ResendClient.post dec transport path reqBody).1
        = .error (.api .RateLimitError)
    ∧ (ResendClient.patch dec transport path reqBody).1
        = .error (.api .RateLimitError)
    ∧ (ResendClient.delete transport path).1 = .error (.api .RateLimitError)
    ∧ ∀ t2 : Request → TransportOutcome,
        (ResendClient.get dec t2 path).2 = 1
        ∧ (ResendClient.post dec t2 path reqBody).2 = 1
        ∧ (ResendClient.patch dec t2 path reqBody).2 = 1
        ∧ (ResendClient.delete t2 path).2 = 1 := by
  refine ⟨?_, ?_, ?_, ?_, ?_⟩
  · simp [ResendClient.get, ResendClient.handle_response, h]
  · simp [ResendClient.post, ResendClient.handle_response, h]
  · simp [ResendClient.patch, ResendClient.handle_response, h]
  · simp [ResendClient.delete, h]
  · intro t2
    refine ⟨?_, ?_, ?_, ?_⟩
    · cases ht : t2 ⟨"GET", path, none⟩ <;> simp [ResendClient.get, ht]
    · cases ht : t2 ⟨"POST", path, some reqBody⟩ <;> simp [ResendClient.post, ht]
    · cases ht : t2 ⟨"PATCH", path, some reqBody⟩ <;> simp [ResendClient.patch, ht]
    · cases ht : t2 ⟨"DELETE", path, none⟩ <;> simp [ResendClient.delete, ht]

/-- Witness for C3: a 429 GET returns `RateLimitError` after one request. -/
theorem claim_C3_witness :
    (ResendClient.get SendEmailResponse.fromJson
      (fun _ => .ok ⟨429, Json.null⟩) "/emails").1 = .error (.api .RateLimitError) :=
  (claim_C3 SendEmailResponse.fromJson (fun _ => .ok ⟨429, Json.null⟩) "/emails"
    Json.null Json.null (fun _ => rfl)).1

/-- Claim C4: on status 200/201 a body the decoder accepts is returned as
that value; a body the decoder rejects yields the decode failure, which is a
different constructor from every classified `ApiError` kind; and the
`SendEmailResponse` decoder rejects (rather than default-fills) any object
missing the required `id` field. -/
theorem claim_C4 {T : Type} (dec : Json → Option T) (status : Nat) (body : Json)
    (v : T) (hst : status = 200 ∨ status = 201) :
    (dec body = some v →
      ResendClient.handle_response dec ⟨status, body⟩ = .ok v)
    ∧ (dec body = none →
      ResendClient.handle_response dec ⟨status, body⟩
        = .error (.decodeFailure "Failed to parse response"))
    ∧ (∀ e : ApiError,
        (ClientError.decodeFailure "Failed to parse response") ≠ .api e)
    ∧ (∀ fields : List (String × Json), getField fields "id" = none →
        SendEmailResponse.fromJson (.obj fields) = none) := by
  refine ⟨?_, ?_, ?_, ?_⟩
  case refine_3 => intro e hc; cases hc
  · intro hd
    rcases hst with h1 | h1 <;> subst h1 <;>
      simp [ResendClient.handle_response, hd]
  · intro hd
    rcases hst with h1 | h1 <;> subst h1 <;>
      simp [ResendClient.handle_response, hd]
  · intro fields hf
    simp [SendEmailResponse.fromJson, requiredString, hf]

/-- Witness for C4: a 200 response with body containing the required `id`
field decodes to the value with id `"e1"`. -/
theorem claim_C4_witness :
    SendEmailResponse.fromJson (Json.obj [("id", Json.str "e1")])
        = some ⟨"e1"⟩
    ∧ ResendClient.handle_response SendEmailResponse.fromJson
        ⟨200, Json.obj [("id", Json.str "e1")]⟩ = .ok ⟨"e1"⟩ :=
  ⟨rfl,
   (claim_C4 SendEmailResponse.fromJson 200 (Json.obj [("id", Json.str "e1")])
     ⟨"e1"⟩ (Or.inl rfl)).1 rfl⟩

/-- Claim C5: `delete` on status 200 or 204 returns success with no value,
for every response body, after exactly one request; `delete` takes no
decoder at all, so it never attempts to decode the body. -/
theorem claim_C5 (transport : Request → TransportOutcome) (path : String)
    (status : Nat) (body : Json)
    (h : ∀ req, transport req = .ok ⟨status, body⟩)
    (hst : status = 200 ∨ status = 204) :
    ResendClient.delete transport path = (.ok (), 1) := by
  rcases hst with h1 | h1 <;> subst h1 <;> simp [ResendClient.delete, h]

/-- Witness for C5: delete on a 200 response with a non-empty body. -/
theorem claim_C5_witness :
    ResendClient.delete (fun _ => .ok ⟨200, Json.str "ignored"⟩) "/domains/d1"
      = (.ok (), 1) :=
  claim_C5 (fun _ => .ok ⟨200, Json.str "ignored"⟩) "/domains/d1" 200
    (Json.str "ignored") (fun _ => rfl) (Or.inl rfl)

/-- Claim C6: each list operation, on a 200 response whose body is the
envelope `\x7b"data": [a, b, ...]\x7d`, returns exactly that sequence of
resources in order, with the envelope discarded. -/
theorem claim_C6 (le : List Email) (ld : List Domain) (lk : List ApiKey)
    (lt : List Template) :
    (ResendClient.list_emails
      (fun _ => .ok ⟨200, .obj [("data", .arr (le.map Email.encode))]⟩)).1
      = .ok le
    ∧ (ResendClient.list_domains
      (fun _ => .ok ⟨200, .obj [("data", .arr (ld.map Domain.encode))]⟩)).1
      = .ok ld
    ∧ (ResendClient.list_api_keys
      (fun _ => .ok ⟨200, .obj [("data", .arr (lk.map ApiKey.encode))]⟩)).1
      = .ok lk
    ∧ (ResendClient.list_templates
      (fun _ => .ok ⟨200, .obj [("data", .arr (lt.map Template.encode))]⟩)).1
      = .ok lt := by
  refine ⟨?_, ?_, ?_, ?_⟩ <;>
    simp [ResendClient.list_emails, ResendClient.list_domains,
      ResendClient.list_api_keys, ResendClient.list_templates,
      ResendClient.get, ResendClient.handle_response,
      EmailsResponse.fromJson, DomainsResponse.fromJson,
      ApiKeysResponse.fromJson, TemplatesResponse.fromJson, getField,
      decodeList_map Email.fromJson Email.encode email_fromJson_encode,
      decodeList_map Domain.fromJson Domain.encode domain_fromJson_encode,
      decodeList_map ApiKey.fromJson ApiKey.encode apiKey_fromJson_encode,
      decodeList_map Template.fromJson Template.encode template_fromJson_encode,
      Except.map]

/-- Claim C7: sending an email with only `from`, `to`, `subject` set
serializes a body whose keys are exactly those three (no optional key, no
null values), and a 200 response with body containing id `"e1"` yields the
success value with that id. -/
theorem claim_C7 :
    SendEmailRequest.toJson
        ⟨"a@x.com", ["b@y.com"], "Hi", none, none, none, none, none, none⟩
      = Json.obj [("from", Json.str "a@x.com"),
                  ("to", Json.arr [Json.str "b@y.com"]),
                  ("subject", Json.str "Hi")]
    ∧ (ResendClient.send_email
        (fun _ => .ok ⟨200, Json.obj [("id", Json.str "e1")]⟩)
        ⟨"a@x.com", ["b@y.com"], "Hi", none, none, none, none, none, none⟩).1
      = .ok ⟨"e1"⟩ :=
  ⟨rfl, rfl⟩

/-- Claim C8: for each of the four Tabular resource types, the fixed header
list and the rendered row of any value have the same length, position by
position, so the renderer needs no per-type branching. -/
theorem claim_C8 :
    (∀ e : Email, (@Tabular.headers Email _).length = (Tabular.row e).length)
    ∧ (∀ d : Domain, (@Tabular.headers Domain _).length = (Tabular.row d).length)
    ∧ (∀ k : ApiKey, (@Tabular.headers ApiKey _).length = (Tabular.row k).length)
    ∧ (∀ t : Template,
        (@Tabular.headers Template _).length = (Tabular.row t).length) :=
  ⟨fun _ => rfl, fun _ => rfl, fun _ => rfl, fun _ => rfl⟩

/-- Claim C9: masking `"re_123456789"` yields `"re_12345********"`, and
masking any key of at most 8 characters yields a same-length string made
only of asterisks. -/
theorem claim_C9 :
    Config.mask_key "re_123456789" = "re_12345********"
    ∧ ∀ key : String, key.length ≤ 8 →
        (Config.mask_key key).length = key.length
        ∧ ∀ c ∈ (Config.mask_key key).data, c = '*' := by
  refine ⟨by decide, ?_⟩
  intro key h
  have hmk : Config.mask_key key = String.mk (List.replicate key.length '*') := by
    simp [Config.mask_key, h]
  constructor
  · rw [hmk]; exact List.length_replicate key.length '*'
  · rw [hmk]; intro c hc; exact List.eq_of_mem_replicate hc

/-- Witness for C9: the 3-character key `"abc"` masks to three asterisks. -/
theorem claim_C9_witness :
    (Config.mask_key "abc").length = ("abc" : String).length
    ∧ ∀ c ∈ (Config.mask_key "abc").data, c = '*' :=
  claim_C9.2 "abc" (by decide)

/-- Claim C10: `test_connection` never returns the success value `false`:
for every transport behaviour it returns `Ok true` or propagates the
classified error unchanged. -/
theorem claim_C10 (transport : Request → TransportOutcome) :
    (ResendClient.test_connection transport).1 ≠ .ok false
    ∧ ((ResendClient.test_connection transport).1 = .ok true
      ∨ ∃ e, (ResendClient.test_connection transport).1 = .error e) := by
  cases hg : (ResendClient.get DomainsResponse.fromJson transport "/domains").1 <;>
    simp [ResendClient.test_connection, hg]

end ResendCli
